import Mathlib

/-!
Shallow embedding of the authentication/session lifecycle manager and the
resilient request pipeline of the `visualping-client` TypeScript library
(`src/client.ts`, `src/error.ts`, `src/constants.ts`).

Modelling conventions:
* timestamps are `Int` milliseconds (mirroring JS `Date.getTime()`, where
  differences may be negative under clock skew);
* optional fields (`string | null`, `Date | null`) become `Option`;
* the HTTP transport is abstracted: each flow/attempt receives the outcome
  the network would have produced, and the model records the requests made;
* the several `new Date()` calls inside one `ensureAuthenticated` execution
  are collapsed to a single `now` parameter (TTLs are hours/days, so the
  sub-millisecond drift between them is irrelevant to every property here);
* JSON payloads are abstracted to the three projections the client reads:
  a `message` field, a `code` field, and the `JSON.stringify` rendering.
-/

namespace Visualping

/-! ### Constants (`src/constants.ts`) -/

def SECOND_MS : Int := 1000
def MINUTE_MS : Int := 60 * SECOND_MS
def HOUR_MS : Int := 60 * MINUTE_MS
def DAY_MS : Int := 24 * HOUR_MS

def ID_TOKEN_REFRESH_MS : Int := 23 * HOUR_MS
def REFRESH_TOKEN_REFRESH_MS : Int := 29 * DAY_MS

/-! ### Error type (`src/error.ts`) -/

/-- Abstraction of a parsed JSON value, keeping exactly the projections the
client reads: `payload?.message`, `payload?.code`, `JSON.stringify(payload)`.
`none` models both an absent field and a `null` one (JS `??` skips both). -/
structure JsonPayload where
  message : Option String
  code : Option String
  serialized : String
  deriving Repr, DecidableEq

/-- `VisualpingApiError` from `src/error.ts`: status, the message passed to the
constructor, and the optional attached payload. -/
structure VisualpingApiError where
  status : Nat
  message : String
  payload : Option JsonPayload
  deriving Repr, DecidableEq

/-- The string the constructor hands to `super(...)` (the `Error.message`). -/
def VisualpingApiError.fullMessage (e : VisualpingApiError) : String :=
  "Visualping API Error (" ++ toString e.status ++ "): " ++ e.message

/-! ### Headers

JS object-literal merging: later spreads overwrite earlier keys in place. -/

abbrev HeaderMap := List (String × String)

/-- Set key `k` to `v`, overwriting in place (JS object key update keeps the
original insertion position). -/
def hset : HeaderMap → String → String → HeaderMap
  | [], k, v => [(k, v)]
  | (k', v') :: rest, k, v =>
      if k' = k then (k, v) :: rest else (k', v') :: hset rest k v

/-- `{...base, ...extra}`: every entry of `extra` overwrites `base`. -/
def hmerge (base extra : HeaderMap) : HeaderMap :=
  extra.foldl (fun acc kv => hset acc kv.1 kv.2) base

/-- Read a header value by exact key. -/
def hget (h : HeaderMap) (k : String) : Option String :=
  (h.find? (fun kv => kv.1 = k)).map (fun kv => kv.2)

/-- Header construction in `baseRequest`: `{'Content-Type': 'application/json'}`
then `Object.assign` with the caller's headers (caller keys win). -/
def baseRequestHeaders (callerHeaders : HeaderMap) : HeaderMap :=
  hmerge [("Content-Type", "application/json")] callerHeaders

/-! ### Session state (fields of `VisualpingClient`) -/

structure Session where
  idToken : Option String
  refreshToken : Option String
  lastIdTokenRefresh : Option Int
  lastRefreshTokenRefresh : Option Int
  deriving Repr, DecidableEq

def emptySession : Session :=
  { idToken := none, refreshToken := none,
    lastIdTokenRefresh := none, lastRefreshTokenRefresh := none }

/-- `isRefreshTokenValid` from `src/client.ts`. -/
def isRefreshTokenValid (s : Session) (now : Int) : Bool :=
  match s.refreshToken with
  | none => false
  | some _ =>
    match s.lastRefreshTokenRefresh with
    | none => false
    | some t => decide (now - t < REFRESH_TOKEN_REFRESH_MS)

/-- `isIdTokenValid` from `src/client.ts`. -/
def isIdTokenValid (s : Session) (now : Int) : Bool :=
  match s.idToken with
  | none => false
  | some _ =>
    match s.lastIdTokenRefresh with
    | none => false
    | some t => decide (now - t < ID_TOKEN_REFRESH_MS)

/-! ### Auth flows (`passwordAuthFlow`, `refreshTokenAuthFlow`) -/

/-- The body of a request to the fixed `/token` endpoint. -/
inductive AuthBody where
  | password (email pw : String)
  | refreshTok (refreshToken : Option String)
  deriving Repr, DecidableEq

/-- A request the authenticator sends through `baseRequest`. Both flows pass
`options` with only `method`/`body`, so `baseRequest` builds the headers from
an empty caller-header object. -/
structure TokenRequest where
  body : AuthBody
  headers : HeaderMap
  deriving Repr, DecidableEq

structure PasswordRefreshResp where
  id_token : String
  refresh_token : String
  deriving Repr, DecidableEq

structure TokenRefreshResp where
  id_token : String
  deriving Repr, DecidableEq

/-- `passwordAuthFlow`: sends `{method: 'PASSWORD', email, password}`; on
transport success assigns `idToken` and `refreshToken` (timestamps are set by
the caller, `ensureAuthenticated`). Returns the request it made. -/
def passwordAuthFlow (s : Session) (email pw : String)
    (transport : Except VisualpingApiError PasswordRefreshResp) :
    Except VisualpingApiError Session × TokenRequest :=
  let req : TokenRequest :=
    { body := .password email pw, headers := baseRequestHeaders [] }
  match transport with
  | .ok r =>
      (.ok { s with idToken := some r.id_token,
                    refreshToken := some r.refresh_token }, req)
  | .error e => (.error e, req)

/-- `refreshTokenAuthFlow`: sends `{method: 'REFRESH_TOKEN', refreshToken}`
carrying the current renewal token; on transport success assigns `idToken`
only. Returns the request it made. -/
def refreshTokenAuthFlow (s : Session)
    (transport : Except VisualpingApiError TokenRefreshResp) :
    Except VisualpingApiError Session × TokenRequest :=
  let req : TokenRequest :=
    { body := .refreshTok s.refreshToken, headers := baseRequestHeaders [] }
  match transport with
  | .ok r => (.ok { s with idToken := some r.id_token }, req)
  | .error e => (.error e, req)

/-! ### `ensureAuthenticated` (body of the in-flight async closure) -/

/-- The async closure installed as `authInFlight`: chooses the flow from the
session's validity predicates, runs it, and on success writes the issued-at
timestamps. Returns the outcome, the resulting session (unchanged on error),
and the list of network requests made. `pwT`/`rtT` are the transport outcomes
the respective flow would observe if it runs. -/
def ensureAuthBody (s : Session) (now : Int) (email pw : String)
    (pwT : Except VisualpingApiError PasswordRefreshResp)
    (rtT : Except VisualpingApiError TokenRefreshResp) :
    Except VisualpingApiError Unit × Session × List TokenRequest :=
  if isRefreshTokenValid s now = false then
    match passwordAuthFlow s email pw pwT with
    | (.ok s', req) =>
        (.ok (), { s' with lastRefreshTokenRefresh := some now,
                           lastIdTokenRefresh := some now }, [req])
    | (.error e, req) => (.error e, s, [req])
  else if isIdTokenValid s now = false then
    match refreshTokenAuthFlow s rtT with
    | (.ok s', req) => (.ok (), { s' with lastIdTokenRefresh := some now }, [req])
    | (.error e, req) => (.error e, s, [req])
  else
    (.ok (), s, [])

/-! ### In-flight de-duplication (`ensureAuthenticated` + `authInFlight`)

JS runs each caller's synchronous prefix to completion before any `await`
resumes, so for callers issued before the in-flight promise resolves:
the first finds `authInFlight === null`, installs the promise synchronously,
and all later callers find it set and await that same promise. The closure's
body reads the session as it was when installed, and the installer's
`finally` clears the marker whatever the outcome. -/

inductive EnterAction where
  | startOp
  | joinOp
  deriving Repr, DecidableEq

/-- One caller's synchronous entry into `ensureAuthenticated`: if a marker is
installed, join it; otherwise install one and start the operation. Returns the
action taken and the marker state afterwards. -/
def enterOne (inFlight : Bool) : EnterAction × Bool :=
  if inFlight then (.joinOp, true) else (.startOp, true)

/-- All `n` callers enter in order, each before the operation resolves. -/
def enterAll : Nat → Bool → List EnterAction × Bool
  | 0, f => ([], f)
  | n + 1, f =>
      let (a, f') := enterOne f
      let (rest, f'') := enterAll n f'
      (a :: rest, f'')

/-- `n` concurrent `ensureAuthenticated` calls, all issued before any
resolves, starting with no marker installed.  Returns: the outcome each
caller observes, the final session, the network requests made, and the
marker state after the installer's `finally` ran. -/
def ensureAuthConcurrent (n : Nat) (s : Session) (now : Int) (email pw : String)
    (pwT : Except VisualpingApiError PasswordRefreshResp)
    (rtT : Except VisualpingApiError TokenRefreshResp) :
    List (Except VisualpingApiError Unit) × Session × List TokenRequest × Bool :=
  match n with
  | 0 => ([], s, [], false)
  | _ + 1 =>
      let acts := (enterAll n false).1
      let (res, s', reqs) := ensureAuthBody s now email pw pwT rtT
      -- every caller awaits the single installed promise and sees `res`;
      -- the installer's `finally` clears the marker before propagating
      (acts.map (fun _ => res), s', reqs, false)

/-! ### `baseRequest` response handling -/

/-- An error escaping `baseRequest`: either a `VisualpingApiError`
(`err instanceof VisualpingApiError` holds, so `err.status` is read by the
pipeline) or some other thrown error (network failure, JSON `SyntaxError`),
which carries no status. -/
inductive ReqError where
  | api (e : VisualpingApiError)
  | other (name : String)
  deriving Repr, DecidableEq

/-- The HTTP response as `baseRequest` consumes it. `jsonBody = none` models a
body that fails JSON parsing; `text` is what `response.text()` yields. -/
structure HttpResponse where
  ok : Bool
  status : Nat
  statusText : String
  jsonBody : Option JsonPayload
  text : String
  deriving Repr, DecidableEq

/-- What `fetch` did: returned a response, was aborted by the timeout
(`err.name === 'AbortError'`), or threw some other network-level error. -/
inductive FetchOutcome where
  | response (r : HttpResponse)
  | abortError
  | networkFailure (name : String)
  deriving Repr, DecidableEq

/-- `baseRequest` after the `fetch` call (`src/client.ts` lines 116-146):
non-ok responses become `VisualpingApiError`s (message from the parsed
payload's `message`, else `code`, else its serialization; on parse failure,
the raw text or the status text, with no payload); a 2xx body that fails JSON
parsing propagates the parse error as-is (a `SyntaxError`, not a
`VisualpingApiError`); an abort becomes `VisualpingApiError 408`. -/
def baseRequestOutcome (f : FetchOutcome) : Except ReqError JsonPayload :=
  match f with
  | .abortError => .error (.api { status := 408, message := "Request timeout", payload := none })
  | .networkFailure name => .error (.other name)
  | .response r =>
    if r.ok then
      match r.jsonBody with
      | some p => .ok p
      | none => .error (.other "SyntaxError")
    else
      match r.jsonBody with
      | some p =>
          .error (.api { status := r.status,
                         message := p.message.getD (p.code.getD p.serialized),
                         payload := some p })
      | none =>
          .error (.api { status := r.status,
                         message := if r.text = "" then r.statusText else r.text,
                         payload := none })

/-! ### Retry pipeline (`authenticatedRequest`) -/

/-- `err instanceof VisualpingApiError ? err.status : undefined`. -/
def errStatus : ReqError → Option Nat
  | .api e => some e.status
  | .other _ => none

/-- `status === 429 || (status !== undefined && status >= 500 && status <= 599)`. -/
def isTransient (e : ReqError) : Bool :=
  match errStatus e with
  | some st => st == 429 || (500 ≤ st && st ≤ 599)
  | none => false

/-- `status === undefined`: fetch threw before a response was obtained. -/
def isNetworkError (e : ReqError) : Bool :=
  match errStatus e with
  | some _ => false
  | none => true

/-- `const backoffMs = (n) => 200 * 2 ** n`. -/
def backoffMs (n : Nat) : Nat := 200 * 2 ^ n

/-- Observable events of one `authenticatedRequest` execution. -/
inductive Ev where
  | ensureAuth
  | send (headers : HeaderMap)
  | wait (ms : Nat)
  deriving Repr, DecidableEq

/-- The `while (true)` retry loop of `authenticatedRequest`, starting with the
attempt counter at `a` prior attempts. `respond i` is the outcome of the
`i`-th transport call (0-indexed). Emits a `send` event per transport call and
a `wait` event per backoff sleep. -/
def requestLoop (respond : Nat → Except ReqError JsonPayload) (h : HeaderMap)
    (retries : Nat) (a : Nat) : Except ReqError JsonPayload × List Ev :=
  match respond a with
  | .ok p => (.ok p, [.send h])
  | .error e =>
    -- `attempt++` then the exit test `attempt > retries || (!isTransient && !isNetworkError)`
    if hcond : retries < a + 1 ∨ (isTransient e = false ∧ isNetworkError e = false) then
      (.error e, [.send h])
    else
      let rest := requestLoop respond h retries (a + 1)
      (rest.1, .send h :: .wait (backoffMs (a + 1 - 1)) :: rest.2)
  termination_by retries - a
  decreasing_by
    simp only [not_or, not_lt] at hcond
    omega

/-- Header construction of `authenticatedRequest`: content type, then the
caller's headers, then (if an id token is present) the Authorization header,
applied last. -/
def authedHeaders (callerHeaders : HeaderMap) (idToken : Option String) : HeaderMap :=
  let base := hmerge [("Content-Type", "application/json")] callerHeaders
  match idToken with
  | some t => hmerge base [("Authorization", "Bearer " ++ t)]
  | none => hmerge base []

/-- `authenticatedRequest`: awaits `ensureAuthenticated` once, builds the
headers once from the session it produced, then runs the retry loop; auth
failures propagate with no transport attempt. Returns the outcome, the
session after authentication, and the event trace. -/
def authenticatedRequest (s : Session) (now : Int) (email pw : String)
    (pwT : Except VisualpingApiError PasswordRefreshResp)
    (rtT : Except VisualpingApiError TokenRefreshResp)
    (callerHeaders : HeaderMap)
    (respond : Nat → Except ReqError JsonPayload)
    (retries : Nat) :
    Except ReqError JsonPayload × Session × List Ev :=
  match ensureAuthBody s now email pw pwT rtT with
  | (.error e, s', _) => (.error (.api e), s', [.ensureAuth])
  | (.ok _, s', _) =>
      let h := authedHeaders callerHeaders s'.idToken
      let (res, evs) := requestLoop respond h retries 0
      (res, s', .ensureAuth :: evs)

/-- Number of transport calls in a trace. -/
def countSends (evs : List Ev) : Nat :=
  (evs.filter (fun ev => match ev with | .send _ => true | _ => false)).length

/-- Number of `ensureAuthenticated` invocations in a trace. -/
def countEnsures (evs : List Ev) : Nat :=
  (evs.filter (fun ev => match ev with | .ensureAuth => true | _ => false)).length

/-- The backoff waits of a trace, in order. -/
def waitsOf (evs : List Ev) : List Nat :=
  evs.filterMap (fun ev => match ev with | .wait ms => some ms | _ => none)

/-- The headers of each transport call of a trace, in order. -/
def sendHeaders (evs : List Ev) : List HeaderMap :=
  evs.filterMap (fun ev => match ev with | .send h => some h | _ => none)

/-- The spec's Credential Pair invariant: an issued-at timestamp is set if and
only if the corresponding token is present (they are always updated together). -/
def WellFormedSession (s : Session) : Prop :=
  (s.idToken = none ↔ s.lastIdTokenRefresh = none) ∧
  (s.refreshToken = none ↔ s.lastRefreshTokenRefresh = none)

/-- A responder whose every attempt is a 2xx response with a body that fails
JSON parsing. -/
def parseFailRespond : Nat → Except ReqError JsonPayload :=
  fun _ => baseRequestOutcome
    (.response { ok := true, status := 200, statusText := "OK",
                 jsonBody := none, text := "not json" })

/-! ### Equation lemmas and invariants of the retry loop -/

lemma requestLoop_ok (respond : Nat → Except ReqError JsonPayload)
    (h : HeaderMap) (retries a : Nat) (p : JsonPayload)
    (hr : respond a = .ok p) :
    requestLoop respond h retries a = (.ok p, [.send h]) := by
  rw [requestLoop.eq_def, hr]

lemma requestLoop_stop (respond : Nat → Except ReqError JsonPayload)
    (h : HeaderMap) (retries a : Nat) (e : ReqError)
    (hr : respond a = .error e)
    (hcond : retries < a + 1 ∨ (isTransient e = false ∧ isNetworkError e = false)) :
    requestLoop respond h retries a = (.error e, [.send h]) := by
  rw [requestLoop.eq_def, hr]
  simp only [dif_pos hcond]

lemma requestLoop_retry (respond : Nat → Except ReqError JsonPayload)
    (h : HeaderMap) (retries a : Nat) (e : ReqError)
    (hr : respond a = .error e)
    (hcond : ¬(retries < a + 1 ∨ (isTransient e = false ∧ isNetworkError e = false))) :
    requestLoop respond h retries a =
      ((requestLoop respond h retries (a + 1)).1,
       .send h :: .wait (backoffMs a) :: (requestLoop respond h retries (a + 1)).2) := by
  rw [requestLoop.eq_def, hr]
  simp only [dif_neg hcond, Nat.add_sub_cancel]

lemma countSends_nil : countSends [] = 0 := rfl

lemma countSends_send_cons (h : HeaderMap) (l : List Ev) :
    countSends (.send h :: l) = countSends l + 1 := by
  simp [countSends, List.filter]

lemma countSends_wait_cons (ms : Nat) (l : List Ev) :
    countSends (.wait ms :: l) = countSends l := by
  simp [countSends, List.filter]

lemma waitsOf_send_cons (h : HeaderMap) (l : List Ev) :
    waitsOf (.send h :: l) = waitsOf l := by
  simp [waitsOf]

lemma waitsOf_wait_cons (ms : Nat) (l : List Ev) :
    waitsOf (.wait ms :: l) = ms :: waitsOf l := by
  simp [waitsOf]

/-- Exhaustion run: while every attempt up to `retries` fails with a
retryable (transient or network) error, the loop keeps retrying, makes
`retries + 1 - a` transport calls, sleeps the exponential backoffs in order,
and propagates the error of the last attempt. -/
lemma requestLoop_exhaust (respond : Nat → Except ReqError JsonPayload)
    (h : HeaderMap) (retries : Nat) :
    ∀ k a, retries - a = k → a ≤ retries →
    (∀ i, a ≤ i → i ≤ retries →
      ∃ e, respond i = .error e ∧ (isTransient e = true ∨ isNetworkError e = true)) →
    ∀ eLast, respond retries = .error eLast →
      (requestLoop respond h retries a).1 = .error eLast ∧
      countSends (requestLoop respond h retries a).2 = retries + 1 - a ∧
      waitsOf (requestLoop respond h retries a).2 =
        (List.range (retries - a)).map (fun i => backoffMs (a + i)) := by
  intro k
  induction k with
  | zero =>
      intro a hk ha hall eLast hlast
      have haeq : a = retries := by omega
      subst haeq
      rw [requestLoop_stop respond h a a eLast hlast (Or.inl (by omega))]
      refine ⟨rfl, ?_, ?_⟩
      · simp [countSends_send_cons, countSends_nil]
      · simp [waitsOf_send_cons, waitsOf]
  | succ k ih =>
      intro a hk ha hall eLast hlast
      have halt : a < retries := by omega
      obtain ⟨e, he, hretry⟩ := hall a le_rfl (by omega)
      have hcond : ¬(retries < a + 1 ∨ (isTransient e = false ∧ isNetworkError e = false)) := by
        rintro (hlt | ⟨ht, hn⟩)
        · omega
        · rcases hretry with h1 | h1 <;> simp [h1] at ht hn
      rw [requestLoop_retry respond h retries a e he hcond]
      have hrec := ih (a + 1) (by omega) (by omega)
        (fun i hi hi' => hall i (by omega) hi') eLast hlast
      refine ⟨hrec.1, ?_, ?_⟩
      · simp only [countSends_send_cons, countSends_wait_cons, hrec.2.1]
        omega
      · simp only [waitsOf_send_cons, waitsOf_wait_cons, hrec.2.2]
        have hra : retries - a = (retries - (a + 1)) + 1 := by omega
        rw [hra, List.range_succ_eq_map]
        simp only [List.map_cons, Nat.add_zero, List.map_map]
        refine congrArg (backoffMs a :: ·) ?_
        apply List.map_congr_left
        intro x hx
        simp only [Function.comp_apply]
        congr 1
        omega

/-- Every event the loop emits is a `send` with the fixed headers or a
`wait`. -/
lemma requestLoop_events (respond : Nat → Except ReqError JsonPayload)
    (h : HeaderMap) (retries : Nat) :
    ∀ k a, retries - a ≤ k →
    ∀ ev ∈ (requestLoop respond h retries a).2, ev = .send h ∨ ∃ ms, ev = .wait ms := by
  intro k
  induction k with
  | zero =>
      intro a hk ev hev
      cases hr : respond a with
      | ok p =>
          rw [requestLoop_ok respond h retries a p hr] at hev
          simp at hev
          exact Or.inl hev
      | error e =>
          rw [requestLoop_stop respond h retries a e hr (Or.inl (by omega))] at hev
          simp at hev
          exact Or.inl hev
  | succ k ih =>
      intro a hk ev hev
      cases hr : respond a with
      | ok p =>
          rw [requestLoop_ok respond h retries a p hr] at hev
          simp at hev
          exact Or.inl hev
      | error e =>
          by_cases hcond : retries < a + 1 ∨ (isTransient e = false ∧ isNetworkError e = false)
          · rw [requestLoop_stop respond h retries a e hr hcond] at hev
            simp at hev
            exact Or.inl hev
          · rw [requestLoop_retry respond h retries a e hr hcond] at hev
            simp only [List.mem_cons] at hev
            rcases hev with rfl | rfl | hev
            · exact Or.inl rfl
            · exact Or.inr ⟨backoffMs a, rfl⟩
            · exact ih (a + 1) (by omega) ev hev

/-- Every transport attempt of the loop uses the fixed headers. -/
lemma requestLoop_sendHeaders (respond : Nat → Except ReqError JsonPayload)
    (h : HeaderMap) (retries a : Nat) :
    ∀ hs ∈ sendHeaders (requestLoop respond h retries a).2, hs = h := by
  intro hs hmem
  simp only [sendHeaders, List.mem_filterMap] at hmem
  obtain ⟨ev, hev, hmap⟩ := hmem
  rcases requestLoop_events respond h retries (retries - a) a le_rfl ev hev with rfl | ⟨ms, rfl⟩
  · simpa using hmap.symm
  · simp at hmap

/-- The loop never re-invokes `ensureAuthenticated`. -/
lemma requestLoop_no_ensure (respond : Nat → Except ReqError JsonPayload)
    (h : HeaderMap) (retries a : Nat) :
    countEnsures (requestLoop respond h retries a).2 = 0 := by
  simp only [countEnsures, List.length_eq_zero]
  rw [List.filter_eq_nil_iff]
  intro ev hev
  rcases requestLoop_events respond h retries (retries - a) a le_rfl ev hev with rfl | ⟨ms, rfl⟩ <;>
    simp

lemma countEnsures_nil : countEnsures [] = 0 := rfl

lemma countEnsures_ensure_cons (l : List Ev) :
    countEnsures (.ensureAuth :: l) = countEnsures l + 1 := by
  simp [countEnsures, List.filter]

lemma sendHeaders_ensure_cons (l : List Ev) :
    sendHeaders (.ensureAuth :: l) = sendHeaders l := by
  simp [sendHeaders]

/-! ### Facts about header maps -/

lemma hget_hset_self (h : HeaderMap) (k v : String) :
    hget (hset h k v) k = some v := by
  induction h with
  | nil => simp [hset, hget, List.find?]
  | cons kv rest ih =>
      obtain ⟨k', v'⟩ := kv
      by_cases hk : k' = k
      · simp [hset, hk, hget, List.find?]
      · simpa [hset, hk, hget, List.find?] using ih

/-- The Authorization header built from the current id token always wins,
whatever the caller supplied. -/
lemma hget_authedHeaders_auth (callerHeaders : HeaderMap) (t : String) :
    hget (authedHeaders callerHeaders (some t)) "Authorization" =
      some ("Bearer " ++ t) := by
  unfold authedHeaders
  exact hget_hset_self _ _ _

/-- The headers `baseRequest` builds for the token-endpoint flows (which pass
no caller headers) contain no Authorization entry. -/
lemma hget_tokenHeaders_none : hget (baseRequestHeaders []) "Authorization" = none := by
  rfl

lemma ensureAuthBody_req_headers (s : Session) (now : Int) (email pw : String)
    (pwT : Except VisualpingApiError PasswordRefreshResp)
    (rtT : Except VisualpingApiError TokenRefreshResp) :
    ∀ req ∈ (ensureAuthBody s now email pw pwT rtT).2.2,
      req.headers = baseRequestHeaders [] := by
  intro req hreq
  by_cases hrv : isRefreshTokenValid s now = false
  · cases pwT with
    | ok r =>
        simp only [ensureAuthBody, passwordAuthFlow, hrv, if_true,
          List.mem_singleton] at hreq
        rw [hreq]
    | error e =>
        simp only [ensureAuthBody, passwordAuthFlow, hrv, if_true,
          List.mem_singleton] at hreq
        rw [hreq]
  · simp only [Bool.not_eq_false] at hrv
    by_cases hiv : isIdTokenValid s now = false
    · cases rtT with
      | ok r =>
          simp only [ensureAuthBody, refreshTokenAuthFlow, hrv, hiv,
            Bool.true_eq_false, if_false, if_true, List.mem_singleton] at hreq
          rw [hreq]
      | error e =>
          simp only [ensureAuthBody, refreshTokenAuthFlow, hrv, hiv,
            Bool.true_eq_false, if_false, if_true, List.mem_singleton] at hreq
          rw [hreq]
    · simp only [Bool.not_eq_false] at hiv
      simp [ensureAuthBody, hrv, hiv] at hreq

/-! ### Basic facts about the TTL constants -/

lemma idTokenTTL_pos : (0 : Int) < ID_TOKEN_REFRESH_MS := by
  norm_num [ID_TOKEN_REFRESH_MS, HOUR_MS, MINUTE_MS, SECOND_MS]

lemma refreshTokenTTL_pos : (0 : Int) < REFRESH_TOKEN_REFRESH_MS := by
  norm_num [REFRESH_TOKEN_REFRESH_MS, DAY_MS, HOUR_MS, MINUTE_MS, SECOND_MS]

/-! ### Facts about caller entry and the in-flight marker -/

lemma enterAll_fst_length (n : Nat) (f : Bool) : (enterAll n f).1.length = n := by
  induction n generalizing f with
  | zero => rfl
  | succ m ih => cases f <;> simp [enterAll, enterOne, ih]

lemma enterAll_true_eq (n : Nat) :
    enterAll n true = (List.replicate n .joinOp, true) := by
  induction n with
  | zero => rfl
  | succ m ih => simp [enterAll, enterOne, ih, List.replicate_succ]

lemma enterAll_false_succ (m : Nat) :
    enterAll (m + 1) false = (.startOp :: List.replicate m .joinOp, true) := by
  simp [enterAll, enterOne, enterAll_true_eq]

lemma ensureAuthConcurrent_eq (n : Nat) (s : Session) (now : Int)
    (email pw : String)
    (pwT : Except VisualpingApiError PasswordRefreshResp)
    (rtT : Except VisualpingApiError TokenRefreshResp) :
    ensureAuthConcurrent (n + 1) s now email pw pwT rtT =
      (List.replicate (n + 1) (ensureAuthBody s now email pw pwT rtT).1,
       (ensureAuthBody s now email pw pwT rtT).2.1,
       (ensureAuthBody s now email pw pwT rtT).2.2, false) := by
  rcases hE : ensureAuthBody s now email pw pwT rtT with ⟨res, s', reqs⟩
  simp [ensureAuthConcurrent, hE, List.map_const', enterAll_fst_length]

/-! ### Claim theorems -/

/-- C1: whenever `ensureAuthenticated` returns without error, `isIdTokenValid`
holds immediately afterwards: the access token is present and its age is under
23 hours (here age `now - now = 0` for the flows that just refreshed it, and
the untouched already-valid token in the no-op branch). -/
theorem ensureAuthenticated_postcondition
    (s : Session) (now : Int) (email pw : String)
    (pwT : Except VisualpingApiError PasswordRefreshResp)
    (rtT : Except VisualpingApiError TokenRefreshResp)
    (h : (ensureAuthBody s now email pw pwT rtT).1 = .ok ()) :
    isIdTokenValid (ensureAuthBody s now email pw pwT rtT).2.1 now = true := by
  by_cases hrv : isRefreshTokenValid s now = false
  · cases pwT with
    | ok r =>
        simp only [ensureAuthBody, passwordAuthFlow, hrv, if_true]
        simp only [isIdTokenValid, decide_eq_true_eq]
        have := idTokenTTL_pos
        omega
    | error e =>
        simp [ensureAuthBody, passwordAuthFlow, hrv] at h
  · simp only [Bool.not_eq_false] at hrv
    by_cases hiv : isIdTokenValid s now = false
    · cases rtT with
      | ok r =>
          simp only [ensureAuthBody, refreshTokenAuthFlow, hrv, hiv,
            Bool.true_eq_false, if_false, if_true]
          simp only [isIdTokenValid, decide_eq_true_eq]
          have := idTokenTTL_pos
          omega
      | error e =>
          simp [ensureAuthBody, refreshTokenAuthFlow, hrv, hiv] at h
    · simp only [Bool.not_eq_false] at hiv
      simp [ensureAuthBody, hrv, hiv]

/-- Witness for C1 at the empty session and a successful password flow. -/
theorem ensureAuthenticated_postcondition_witness :
    (ensureAuthBody emptySession 0 "e" "p"
      (.ok { id_token := "id1", refresh_token := "rt1" })
      (.ok { id_token := "id2" })).1 = .ok () ∧
    isIdTokenValid (ensureAuthBody emptySession 0 "e" "p"
      (.ok { id_token := "id1", refresh_token := "rt1" })
      (.ok { id_token := "id2" })).2.1 0 = true :=
  ⟨rfl, ensureAuthenticated_postcondition emptySession 0 "e" "p"
      (.ok { id_token := "id1", refresh_token := "rt1" })
      (.ok { id_token := "id2" }) rfl⟩

/-- Under the invariant, the code's renewal-validity predicate is false exactly
when the renewal token is absent or at least 29 days old. -/
lemma isRefreshTokenValid_false_iff (s : Session) (now : Int)
    (hwf : WellFormedSession s) :
    isRefreshTokenValid s now = false ↔
      (s.refreshToken = none ∨
       ∃ t, s.lastRefreshTokenRefresh = some t ∧
            REFRESH_TOKEN_REFRESH_MS ≤ now - t) := by
  obtain ⟨-, hwr⟩ := hwf
  cases hrt : s.refreshToken with
  | none => simp [isRefreshTokenValid, hrt]
  | some tok =>
    cases hlast : s.lastRefreshTokenRefresh with
    | none =>
        exfalso
        have : s.refreshToken = none := hwr.mpr hlast
        simp [hrt] at this
    | some t =>
        simp only [isRefreshTokenValid, hrt, hlast, decide_eq_false_iff_not,
          not_lt, reduceCtorEq, false_or, Option.some.injEq]
        constructor
        · intro hle
          exact ⟨t, rfl, hle⟩
        · rintro ⟨t', ht', hle⟩
          omega

/-- Under the invariant, the code's access-validity predicate is false exactly
when the access token is absent or at least 23 hours old. -/
lemma isIdTokenValid_false_iff (s : Session) (now : Int)
    (hwf : WellFormedSession s) :
    isIdTokenValid s now = false ↔
      (s.idToken = none ∨
       ∃ t, s.lastIdTokenRefresh = some t ∧ ID_TOKEN_REFRESH_MS ≤ now - t) := by
  obtain ⟨hwi, -⟩ := hwf
  cases hrt : s.idToken with
  | none => simp [isIdTokenValid, hrt]
  | some tok =>
    cases hlast : s.lastIdTokenRefresh with
    | none =>
        exfalso
        have : s.idToken = none := hwi.mpr hlast
        simp [hrt] at this
    | some t =>
        simp only [isIdTokenValid, hrt, hlast, decide_eq_false_iff_not,
          not_lt, reduceCtorEq, false_or, Option.some.injEq]
        constructor
        · intro hle
          exact ⟨t, rfl, hle⟩
        · rintro ⟨t', ht', hle⟩
          omega

/-- C3: flow selection of `ensureAuthenticated` (no operation in flight).
If the renewal token is absent or at least 29 days old ("older than 29 days"
in the spec's sense of having left its freshness window), the primary
PASSWORD flow runs, and on transport success all four credential fields are
set (tokens from the response, both issued-at timestamps to `now`); else if
the access token is absent or at least 23 hours old, the secondary
REFRESH_TOKEN flow runs; else no network request is made and the session is
returned unchanged (identity-equal fields). -/
theorem ensureAuthenticated_flow_selection
    (s : Session) (now : Int) (email pw : String)
    (pwT : Except VisualpingApiError PasswordRefreshResp)
    (rtT : Except VisualpingApiError TokenRefreshResp)
    (hwf : WellFormedSession s) :
    ((s.refreshToken = none ∨
      ∃ t, s.lastRefreshTokenRefresh = some t ∧ REFRESH_TOKEN_REFRESH_MS ≤ now - t) →
      (ensureAuthBody s now email pw pwT rtT).2.2 =
        [{ body := .password email pw, headers := baseRequestHeaders [] }] ∧
      (∀ r, pwT = .ok r →
        (ensureAuthBody s now email pw pwT rtT).2.1 =
          { idToken := some r.id_token, refreshToken := some r.refresh_token,
            lastIdTokenRefresh := some now, lastRefreshTokenRefresh := some now })) ∧
    (¬(s.refreshToken = none ∨
       ∃ t, s.lastRefreshTokenRefresh = some t ∧ REFRESH_TOKEN_REFRESH_MS ≤ now - t) →
      (s.idToken = none ∨
       ∃ t, s.lastIdTokenRefresh = some t ∧ ID_TOKEN_REFRESH_MS ≤ now - t) →
      (ensureAuthBody s now email pw pwT rtT).2.2 =
        [{ body := .refreshTok s.refreshToken, headers := baseRequestHeaders [] }]) ∧
    (¬(s.refreshToken = none ∨
       ∃ t, s.lastRefreshTokenRefresh = some t ∧ REFRESH_TOKEN_REFRESH_MS ≤ now - t) →
      ¬(s.idToken = none ∨
        ∃ t, s.lastIdTokenRefresh = some t ∧ ID_TOKEN_REFRESH_MS ≤ now - t) →
      (ensureAuthBody s now email pw pwT rtT).2.2 = [] ∧
      (ensureAuthBody s now email pw pwT rtT).2.1 = s ∧
      (ensureAuthBody s now email pw pwT rtT).1 = .ok ()) := by
  refine ⟨?_, ?_, ?_⟩
  · intro hbad
    have hrv : isRefreshTokenValid s now = false :=
      (isRefreshTokenValid_false_iff s now hwf).mpr hbad
    cases pwT with
    | ok r =>
        refine ⟨?_, ?_⟩
        · simp [ensureAuthBody, passwordAuthFlow, hrv]
        · intro r' hr'
          obtain rfl : r = r' := by simpa using hr'
          simp [ensureAuthBody, passwordAuthFlow, hrv]
    | error e =>
        refine ⟨?_, ?_⟩
        · simp [ensureAuthBody, passwordAuthFlow, hrv]
        · intro r' hr'
          simp at hr'
  · intro hgood hbadId
    have hrv : ¬ isRefreshTokenValid s now = false := fun hc =>
      hgood ((isRefreshTokenValid_false_iff s now hwf).mp hc)
    simp only [Bool.not_eq_false] at hrv
    have hiv : isIdTokenValid s now = false :=
      (isIdTokenValid_false_iff s now hwf).mpr hbadId
    cases rtT with
    | ok r => simp [ensureAuthBody, refreshTokenAuthFlow, hrv, hiv]
    | error e => simp [ensureAuthBody, refreshTokenAuthFlow, hrv, hiv]
  · intro hgood hgoodId
    have hrv : ¬ isRefreshTokenValid s now = false := fun hc =>
      hgood ((isRefreshTokenValid_false_iff s now hwf).mp hc)
    have hiv : ¬ isIdTokenValid s now = false := fun hc =>
      hgoodId ((isIdTokenValid_false_iff s now hwf).mp hc)
    simp only [Bool.not_eq_false] at hrv hiv
    simp [ensureAuthBody, hrv, hiv]

/-- Witness for C3 at an empty session (renewal token absent): the primary
flow runs and a successful response sets all four fields. -/
theorem ensureAuthenticated_flow_selection_witness :
    (ensureAuthBody emptySession 5 "e" "p"
        (.ok { id_token := "idA", refresh_token := "rtA" })
        (.ok { id_token := "idB" })).2.2 =
      [{ body := .password "e" "p", headers := baseRequestHeaders [] }] ∧
    (ensureAuthBody emptySession 5 "e" "p"
        (.ok { id_token := "idA", refresh_token := "rtA" })
        (.ok { id_token := "idB" })).2.1 =
      { idToken := some "idA", refreshToken := some "rtA",
        lastIdTokenRefresh := some 5, lastRefreshTokenRefresh := some 5 } := by
  have h := ensureAuthenticated_flow_selection emptySession 5 "e" "p"
    (.ok { id_token := "idA", refresh_token := "rtA" })
    (.ok { id_token := "idB" })
    (by constructor <;> simp [emptySession])
  have h1 := h.1 (Or.inl rfl)
  exact ⟨h1.1, h1.2 _ rfl⟩

/-- The operation makes one network request exactly when a credential is
invalid, and none otherwise. -/
lemma ensureAuthBody_calls_length
    (s : Session) (now : Int) (email pw : String)
    (pwT : Except VisualpingApiError PasswordRefreshResp)
    (rtT : Except VisualpingApiError TokenRefreshResp) :
    ((ensureAuthBody s now email pw pwT rtT).2.2).length =
      (if isRefreshTokenValid s now = false ∨ isIdTokenValid s now = false
       then 1 else 0) := by
  by_cases hrv : isRefreshTokenValid s now = false
  · cases pwT with
    | ok r => simp [ensureAuthBody, passwordAuthFlow, hrv]
    | error e => simp [ensureAuthBody, passwordAuthFlow, hrv]
  · simp only [Bool.not_eq_false] at hrv
    by_cases hiv : isIdTokenValid s now = false
    · cases rtT with
      | ok r => simp [ensureAuthBody, refreshTokenAuthFlow, hrv, hiv]
      | error e => simp [ensureAuthBody, refreshTokenAuthFlow, hrv, hiv]
    · simp only [Bool.not_eq_false] at hiv
      simp [ensureAuthBody, hrv, hiv]

/-- C2 (amended): for `n ≥ 1` concurrent `ensureAuthenticated` calls issued
before any resolves, exactly one of them installs a new in-flight operation;
at most one authentication network call is made — exactly one precisely when
some credential is invalid, zero when both are valid; every caller observes
the same outcome (the shared operation's result); and the in-flight marker is
cleared once the operation resolves. -/
theorem ensureAuthenticated_concurrent_dedup
    (n : Nat) (s : Session) (now : Int) (email pw : String)
    (pwT : Except VisualpingApiError PasswordRefreshResp)
    (rtT : Except VisualpingApiError TokenRefreshResp)
    (hn : 1 ≤ n) :
    ((enterAll n false).1.count EnterAction.startOp = 1) ∧
    (((ensureAuthConcurrent n s now email pw pwT rtT).2.2.1).length ≤ 1) ∧
    (((ensureAuthConcurrent n s now email pw pwT rtT).2.2.1).length = 1 ↔
      (isRefreshTokenValid s now = false ∨ isIdTokenValid s now = false)) ∧
    ((ensureAuthConcurrent n s now email pw pwT rtT).1 =
      List.replicate n (ensureAuthBody s now email pw pwT rtT).1) ∧
    ((ensureAuthConcurrent n s now email pw pwT rtT).2.2.2 = false) := by
  obtain ⟨m, rfl⟩ : ∃ m, n = m + 1 := ⟨n - 1, by omega⟩
  refine ⟨?_, ?_, ?_, ?_, ?_⟩
  · simp [enterAll_false_succ, List.count_cons, List.count_replicate]
  · rw [ensureAuthConcurrent_eq]
    simp only
    rw [ensureAuthBody_calls_length]
    split <;> omega
  · rw [ensureAuthConcurrent_eq]
    simp only
    rw [ensureAuthBody_calls_length]
    by_cases hc : isRefreshTokenValid s now = false ∨ isIdTokenValid s now = false
    · simp [hc]
    · simp [hc]
  · rw [ensureAuthConcurrent_eq]
  · rw [ensureAuthConcurrent_eq]

/-- Witness for C2's amended claim: two concurrent callers at the empty
session, where the single shared operation makes exactly one network call and
both callers see success. -/
theorem ensureAuthenticated_concurrent_dedup_witness :
    ((enterAll 2 false).1.count EnterAction.startOp = 1) ∧
    (((ensureAuthConcurrent 2 emptySession 0 "e" "p"
        (.ok { id_token := "i", refresh_token := "r" })
        (.ok { id_token := "j" })).2.2.1).length = 1) ∧
    ((ensureAuthConcurrent 2 emptySession 0 "e" "p"
        (.ok { id_token := "i", refresh_token := "r" })
        (.ok { id_token := "j" })).1 = List.replicate 2 (.ok ())) ∧
    ((ensureAuthConcurrent 2 emptySession 0 "e" "p"
        (.ok { id_token := "i", refresh_token := "r" })
        (.ok { id_token := "j" })).2.2.2 = false) := by
  have h := ensureAuthenticated_concurrent_dedup 2 emptySession 0 "e" "p"
    (.ok { id_token := "i", refresh_token := "r" })
    (.ok { id_token := "j" }) (by omega)
  exact ⟨h.1, h.2.2.1.mpr (Or.inl rfl), h.2.2.2.1, h.2.2.2.2⟩

/-- Counterexample to C2 as stated: with both credentials valid, a set of two
concurrent `ensureAuthenticated` calls issued before any resolves makes ZERO
authentication network calls, not exactly one. -/
theorem ensureAuthenticated_concurrent_counterexample :
    (((ensureAuthConcurrent 2
        { idToken := some "id", refreshToken := some "rt",
          lastIdTokenRefresh := some 0, lastRefreshTokenRefresh := some 0 }
        0 "e" "p"
        (.ok { id_token := "i", refresh_token := "r" })
        (.ok { id_token := "j" })).2.2.1).length = 0) ∧
    ¬ (((ensureAuthConcurrent 2
        { idToken := some "id", refreshToken := some "rt",
          lastIdTokenRefresh := some 0, lastRefreshTokenRefresh := some 0 }
        0 "e" "p"
        (.ok { id_token := "i", refresh_token := "r" })
        (.ok { id_token := "j" })).2.2.1).length = 1) := by
  constructor
  · rfl
  · intro hc
    simp only [ensureAuthConcurrent, ensureAuthBody, isRefreshTokenValid,
      isIdTokenValid] at hc
    norm_num [REFRESH_TOKEN_REFRESH_MS, ID_TOKEN_REFRESH_MS, DAY_MS, HOUR_MS,
      MINUTE_MS, SECOND_MS, enterAll, enterOne] at hc

/-- C4: with a valid renewal token and an invalid access token,
`ensureAuthenticated` makes exactly one secondary-flow request carrying the
current renewal token; on success only the access token and its issued-at
timestamp change, while the renewal token and its timestamp are identical to
what they were before. -/
theorem refreshFlow_frame_effect
    (s : Session) (now : Int) (email pw : String)
    (pwT : Except VisualpingApiError PasswordRefreshResp)
    (r : TokenRefreshResp)
    (hrv : isRefreshTokenValid s now = true)
    (hiv : isIdTokenValid s now = false) :
    (ensureAuthBody s now email pw pwT (.ok r)).2.2 =
      [{ body := .refreshTok s.refreshToken, headers := baseRequestHeaders [] }] ∧
    (ensureAuthBody s now email pw pwT (.ok r)).1 = .ok () ∧
    (ensureAuthBody s now email pw pwT (.ok r)).2.1.idToken = some r.id_token ∧
    (ensureAuthBody s now email pw pwT (.ok r)).2.1.lastIdTokenRefresh = some now ∧
    (ensureAuthBody s now email pw pwT (.ok r)).2.1.refreshToken = s.refreshToken ∧
    (ensureAuthBody s now email pw pwT (.ok r)).2.1.lastRefreshTokenRefresh =
      s.lastRefreshTokenRefresh := by
  refine ⟨?_, ?_, ?_, ?_, ?_, ?_⟩ <;>
    simp [ensureAuthBody, refreshTokenAuthFlow, hrv, hiv]

/-- Witness for C4: a session holding a fresh renewal token and a stale access
token, refreshed successfully at time `now = ID_TOKEN_REFRESH_MS`. -/
theorem refreshFlow_frame_effect_witness :
    (ensureAuthBody
        { idToken := some "oldId", refreshToken := some "rt0",
          lastIdTokenRefresh := some 0, lastRefreshTokenRefresh := some 0 }
        ID_TOKEN_REFRESH_MS "e" "p"
        (.ok { id_token := "pwId", refresh_token := "pwRt" })
        (.ok { id_token := "newId" })).2.2 =
      [{ body := .refreshTok (some "rt0"), headers := baseRequestHeaders [] }] ∧
    (ensureAuthBody
        { idToken := some "oldId", refreshToken := some "rt0",
          lastIdTokenRefresh := some 0, lastRefreshTokenRefresh := some 0 }
        ID_TOKEN_REFRESH_MS "e" "p"
        (.ok { id_token := "pwId", refresh_token := "pwRt" })
        (.ok { id_token := "newId" })).2.1 =
      { idToken := some "newId", refreshToken := some "rt0",
        lastIdTokenRefresh := some ID_TOKEN_REFRESH_MS,
        lastRefreshTokenRefresh := some 0 } := by
  have h := refreshFlow_frame_effect
    { idToken := some "oldId", refreshToken := some "rt0",
      lastIdTokenRefresh := some 0, lastRefreshTokenRefresh := some 0 }
    ID_TOKEN_REFRESH_MS "e" "p"
    (.ok { id_token := "pwId", refresh_token := "pwRt" })
    { id_token := "newId" }
    (by simp [isRefreshTokenValid, REFRESH_TOKEN_REFRESH_MS, ID_TOKEN_REFRESH_MS,
          DAY_MS, HOUR_MS, MINUTE_MS, SECOND_MS])
    (by simp [isIdTokenValid])
  refine ⟨h.1, ?_⟩
  obtain ⟨-, -, h3, h4, h5, h6⟩ := h
  cases hsess : (ensureAuthBody
      { idToken := some "oldId", refreshToken := some "rt0",
        lastIdTokenRefresh := some 0, lastRefreshTokenRefresh := some 0 }
      ID_TOKEN_REFRESH_MS "e" "p"
      (.ok { id_token := "pwId", refresh_token := "pwRt" })
      (.ok { id_token := "newId" })).2.1
  rw [hsess] at h3 h4 h5 h6
  simp only at h3 h4 h5 h6
  simp [h3, h4, h5, h6]

/-- C5: if the transport call of the selected flow fails, the error is the
operation's outcome (and, through the shared in-flight promise, is observed by
every awaiting caller), and the session is exactly what it was before the
attempt — no partial credential update. -/
theorem auth_failure_atomicity
    (s : Session) (now : Int) (email pw : String)
    (pwT : Except VisualpingApiError PasswordRefreshResp)
    (rtT : Except VisualpingApiError TokenRefreshResp)
    (e : VisualpingApiError) (n : Nat)
    (herr : (ensureAuthBody s now email pw pwT rtT).1 = .error e) :
    (ensureAuthBody s now email pw pwT rtT).2.1 = s ∧
    (1 ≤ n →
      (ensureAuthConcurrent n s now email pw pwT rtT).1 =
        List.replicate n (.error e)) := by
  have hstate : (ensureAuthBody s now email pw pwT rtT).2.1 = s := by
    by_cases hrv : isRefreshTokenValid s now = false
    · cases pwT with
      | ok r => simp [ensureAuthBody, passwordAuthFlow, hrv] at herr
      | error e' => simp [ensureAuthBody, passwordAuthFlow, hrv]
    · simp only [Bool.not_eq_false] at hrv
      by_cases hiv : isIdTokenValid s now = false
      · cases rtT with
        | ok r => simp [ensureAuthBody, refreshTokenAuthFlow, hrv, hiv] at herr
        | error e' => simp [ensureAuthBody, refreshTokenAuthFlow, hrv, hiv]
      · simp only [Bool.not_eq_false] at hiv
        simp [ensureAuthBody, hrv, hiv]
  refine ⟨hstate, ?_⟩
  intro hn
  obtain ⟨m, rfl⟩ : ∃ m, n = m + 1 := ⟨n - 1, by omega⟩
  rw [ensureAuthConcurrent_eq]
  simp [herr]

/-- Witness for C5: a failing password flow at the empty session with two
concurrent callers. -/
theorem auth_failure_atomicity_witness :
    (ensureAuthBody emptySession 0 "e" "p"
        (.error { status := 500, message := "boom", payload := none })
        (.ok { id_token := "x" })).2.1 = emptySession ∧
    (ensureAuthConcurrent 2 emptySession 0 "e" "p"
        (.error { status := 500, message := "boom", payload := none })
        (.ok { id_token := "x" })).1 =
      List.replicate 2 (.error { status := 500, message := "boom", payload := none }) := by
  have h := auth_failure_atomicity emptySession 0 "e" "p"
    (.error { status := 500, message := "boom", payload := none })
    (.ok { id_token := "x" })
    { status := 500, message := "boom", payload := none } 2 rfl
  exact ⟨h.1, h.2 (by omega)⟩

/-- C6: the pipeline treats a failure as retryable exactly when its status is
429, in 500-599, or absent; on an all-retryable run it makes `retries + 1`
transport calls, sleeps `200 * 2^(attempt-1)` ms before each retry, and
propagates the last error; a present status outside that set propagates
immediately after exactly one transport call. -/
theorem authenticatedRequest_retry_policy
    (respond : Nat → Except ReqError JsonPayload) (h : HeaderMap) (retries : Nat) :
    (∀ e : ReqError, (isTransient e = true ∨ isNetworkError e = true) ↔
        (errStatus e = some 429 ∨
         (∃ c, errStatus e = some c ∧ 500 ≤ c ∧ c ≤ 599) ∨
         errStatus e = none)) ∧
    ((∀ i, i ≤ retries →
        ∃ e, respond i = .error e ∧ (isTransient e = true ∨ isNetworkError e = true)) →
      ∀ eLast, respond retries = .error eLast →
        (requestLoop respond h retries 0).1 = .error eLast ∧
        countSends (requestLoop respond h retries 0).2 = retries + 1 ∧
        waitsOf (requestLoop respond h retries 0).2 =
          (List.range retries).map (fun k => 200 * 2 ^ k)) ∧
    (∀ e st, respond 0 = .error e → errStatus e = some st →
      st ≠ 429 → ¬(500 ≤ st ∧ st ≤ 599) →
      requestLoop respond h retries 0 = (.error e, [.send h])) := by
  refine ⟨?_, ?_, ?_⟩
  · intro e
    cases e with
    | api er =>
        simp only [isTransient, isNetworkError, errStatus, Bool.or_eq_true,
          beq_iff_eq, Bool.and_eq_true, decide_eq_true_eq, Option.some.injEq,
          reduceCtorEq, or_false, false_or, Bool.false_eq_true]
        constructor
        · rintro (h1 | ⟨h2, h3⟩)
          · exact Or.inl h1
          · exact Or.inr ⟨er.status, rfl, h2, h3⟩
        · rintro (h1 | ⟨c, hc, h2, h3⟩)
          · exact Or.inl h1
          · cases hc
            exact Or.inr ⟨h2, h3⟩
    | other name =>
        simp [isTransient, isNetworkError, errStatus]
  · intro hall eLast hlast
    have hres := requestLoop_exhaust respond h retries retries 0 (by omega) (by omega)
      (fun i _ hi' => hall i hi') eLast hlast
    refine ⟨hres.1, by simpa using hres.2.1, ?_⟩
    rw [hres.2.2]
    simp only [Nat.sub_zero, Nat.zero_add]
    apply List.map_congr_left
    intro x hx
    simp [backoffMs]
  · intro e st hr hst h429 h5xx
    apply requestLoop_stop respond h retries 0 e hr
    right
    cases e with
    | api er =>
        simp only [errStatus, Option.some.injEq] at hst
        subst hst
        refine ⟨?_, rfl⟩
        simp only [isTransient, errStatus, Bool.or_eq_false_iff, beq_eq_false_iff_ne,
          ne_eq, Bool.and_eq_false_iff, decide_eq_false_iff_not, not_le]
        refine ⟨h429, ?_⟩
        by_cases hge : 500 ≤ er.status
        · exact Or.inr (by omega)
        · exact Or.inl (by omega)
    | other name =>
        simp [errStatus] at hst

/-- Witness for C6: a responder that always answers 500, with the default two
retries: three transport calls, backoffs 200 ms then 400 ms, and the last 500
error propagates. -/
theorem authenticatedRequest_retry_policy_witness :
    (requestLoop
        (fun _ => .error (.api { status := 500, message := "server error", payload := none }))
        [] 2 0).1 =
      .error (.api { status := 500, message := "server error", payload := none }) ∧
    countSends (requestLoop
        (fun _ => .error (.api { status := 500, message := "server error", payload := none }))
        [] 2 0).2 = 3 ∧
    waitsOf (requestLoop
        (fun _ => .error (.api { status := 500, message := "server error", payload := none }))
        [] 2 0).2 = [200, 400] := by
  have h := (authenticatedRequest_retry_policy
    (fun _ => .error (.api { status := 500, message := "server error", payload := none }))
    [] 2).2.1
    (fun i _ => ⟨.api { status := 500, message := "server error", payload := none },
      rfl, Or.inl rfl⟩)
    (.api { status := 500, message := "server error", payload := none }) rfl
  refine ⟨h.1, h.2.1, ?_⟩
  rw [h.2.2]
  decide

/-- Counterexample to C7 as stated: a request whose 2xx responses all fail
JSON parsing is retried by the pipeline — with the default two retries it
makes three transport calls, not exactly one. -/
theorem parse_error_single_call_counterexample :
    countSends (requestLoop parseFailRespond [] 2 0).2 = 3 ∧
    ¬ countSends (requestLoop parseFailRespond [] 2 0).2 = 1 := by
  have hr : ∀ a, parseFailRespond a = .error (.other "SyntaxError") := fun a => rfl
  have h0 := requestLoop_retry parseFailRespond [] 2 0 (.other "SyntaxError")
    (hr 0) (by decide)
  have h1 := requestLoop_retry parseFailRespond [] 2 1 (.other "SyntaxError")
    (hr 1) (by decide)
  have h2 := requestLoop_stop parseFailRespond [] 2 2 (.other "SyntaxError")
    (hr 2) (by decide)
  have hcount : countSends (requestLoop parseFailRespond [] 2 0).2 = 3 := by
    rw [h0]
    simp only [countSends_send_cons, countSends_wait_cons]
    rw [h1]
    simp only [countSends_send_cons, countSends_wait_cons]
    rw [h2]
    simp [countSends_send_cons, countSends_nil]
  exact ⟨hcount, by omega⟩

/-- C7 (amended): a 2xx response whose body fails JSON parsing makes
`baseRequest` propagate the parse error as-is; that error carries no status,
so the pipeline classifies it as a network-level (retryable) failure rather
than fatal: when every attempt hits such a response, the pipeline makes
`retries + 1` transport calls and then propagates the parse error unchanged. -/
theorem parse_error_retried_policy (r : HttpResponse)
    (respond : Nat → Except ReqError JsonPayload) (h : HeaderMap) (retries : Nat) :
    (r.ok = true → r.jsonBody = none →
      baseRequestOutcome (.response r) = .error (.other "SyntaxError")) ∧
    isTransient (.other "SyntaxError") = false ∧
    isNetworkError (.other "SyntaxError") = true ∧
    ((∀ i, i ≤ retries → respond i = .error (.other "SyntaxError")) →
      (requestLoop respond h retries 0).1 = .error (.other "SyntaxError") ∧
      countSends (requestLoop respond h retries 0).2 = retries + 1) := by
  refine ⟨?_, rfl, rfl, ?_⟩
  · intro hok hbody
    simp [baseRequestOutcome, hok, hbody]
  · intro hall
    have hres := requestLoop_exhaust respond h retries retries 0 (by omega) (by omega)
      (fun i _ hi' => ⟨.other "SyntaxError", hall i hi', Or.inr rfl⟩)
      (.other "SyntaxError") (hall retries le_rfl)
    exact ⟨hres.1, by simpa using hres.2.1⟩

/-- Witness for C7's amended claim at the concrete parse-failing responder. -/
theorem parse_error_retried_policy_witness :
    baseRequestOutcome
      (.response { ok := true, status := 200, statusText := "OK",
                   jsonBody := none, text := "not json" }) =
      .error (.other "SyntaxError") ∧
    (requestLoop parseFailRespond [] 2 0).1 = .error (.other "SyntaxError") ∧
    countSends (requestLoop parseFailRespond [] 2 0).2 = 3 := by
  have h := parse_error_retried_policy
    { ok := true, status := 200, statusText := "OK", jsonBody := none, text := "not json" }
    parseFailRespond [] 2
  exact ⟨h.1 rfl rfl, (h.2.2.2 (fun i _ => rfl)).1, (h.2.2.2 (fun i _ => rfl)).2⟩

/-- C8: a non-success response whose body parses as JSON yields a classified
error carrying that status, a message from the payload's `message` field,
else its `code` field, else the full serialization, with the parsed payload
attached; a non-success response whose body does not parse yields a
classified error whose message is the raw text (or the status text when the
raw text is blank) with no payload. -/
theorem baseRequest_error_construction (r : HttpResponse) (hok : r.ok = false) :
    (∀ p, r.jsonBody = some p →
      baseRequestOutcome (.response r) =
        .error (.api { status := r.status,
                       message := p.message.getD (p.code.getD p.serialized),
                       payload := some p }) ∧
      (∀ m, p.message = some m → p.message.getD (p.code.getD p.serialized) = m) ∧
      (∀ c, p.message = none → p.code = some c →
        p.message.getD (p.code.getD p.serialized) = c) ∧
      (p.message = none → p.code = none →
        p.message.getD (p.code.getD p.serialized) = p.serialized)) ∧
    (r.jsonBody = none →
      baseRequestOutcome (.response r) =
        .error (.api { status := r.status,
                       message := if r.text = "" then r.statusText else r.text,
                       payload := none })) := by
  constructor
  · intro p hp
    refine ⟨?_, ?_, ?_, ?_⟩
    · simp [baseRequestOutcome, hok, hp]
    · intro m hm
      simp [hm]
    · intro c hm hc
      simp [hm, hc]
    · intro hm hc
      simp [hm, hc]
  · intro hp
    simp [baseRequestOutcome, hok, hp]

/-- Witness for C8: a 404 with a parsed payload (message present) and a 502
with an unparseable blank body (falls back to the status text). -/
theorem baseRequest_error_construction_witness :
    baseRequestOutcome (.response
        { ok := false, status := 404, statusText := "Not Found",
          jsonBody := some { message := some "job missing", code := some "E404",
                             serialized := "{}" },
          text := "raw" }) =
      .error (.api { status := 404, message := "job missing",
                     payload := some { message := some "job missing",
                                       code := some "E404", serialized := "{}" } }) ∧
    baseRequestOutcome (.response
        { ok := false, status := 502, statusText := "Bad Gateway",
          jsonBody := none, text := "" }) =
      .error (.api { status := 502, message := "Bad Gateway", payload := none }) := by
  have h1 := (baseRequest_error_construction
    { ok := false, status := 404, statusText := "Not Found",
      jsonBody := some { message := some "job missing", code := some "E404",
                         serialized := "{}" },
      text := "raw" } rfl).1
    { message := some "job missing", code := some "E404", serialized := "{}" } rfl
  have h2 := (baseRequest_error_construction
    { ok := false, status := 502, statusText := "Bad Gateway",
      jsonBody := none, text := "" } rfl).2 rfl
  exact ⟨h1.1, h2⟩

/-- C9: when an access token is present, the Authorization header of an
authenticated request is `Bearer <idToken>`, overriding any caller-supplied
Authorization value (it is merged last); every transport attempt of
`authenticatedRequest` carries it; and the authentication-flow requests to the
token endpoint never carry an Authorization header. -/
theorem authorization_header_policy (callerHeaders : HeaderMap) (t : String) :
    (hget (authedHeaders callerHeaders (some t)) "Authorization" =
      some ("Bearer " ++ t)) ∧
    (∀ (s : Session) (now : Int) (email pw : String)
       (pwT : Except VisualpingApiError PasswordRefreshResp)
       (rtT : Except VisualpingApiError TokenRefreshResp)
       (req : TokenRequest),
      req ∈ (ensureAuthBody s now email pw pwT rtT).2.2 →
      hget req.headers "Authorization" = none) ∧
    (∀ (s : Session) (now : Int) (email pw : String)
       (pwT : Except VisualpingApiError PasswordRefreshResp)
       (rtT : Except VisualpingApiError TokenRefreshResp)
       (respond : Nat → Except ReqError JsonPayload) (retries : Nat)
       (hs : HeaderMap),
      (authenticatedRequest s now email pw pwT rtT callerHeaders respond retries).2.1.idToken
        = some t →
      hs ∈ sendHeaders
        (authenticatedRequest s now email pw pwT rtT callerHeaders respond retries).2.2 →
      hget hs "Authorization" = some ("Bearer " ++ t)) := by
  refine ⟨hget_authedHeaders_auth callerHeaders t, ?_, ?_⟩
  · intro s now email pw pwT rtT req hreq
    rw [ensureAuthBody_req_headers s now email pw pwT rtT req hreq]
    exact hget_tokenHeaders_none
  · intro s now email pw pwT rtT respond retries hs hid hmem
    rcases hE : ensureAuthBody s now email pw pwT rtT with ⟨res, s', reqs⟩
    cases res with
    | error e =>
        simp only [authenticatedRequest, hE, sendHeaders, List.filterMap] at hmem
        exact absurd hmem (List.not_mem_nil hs)
    | ok u =>
        simp only [authenticatedRequest, hE] at hid hmem
        rw [sendHeaders_ensure_cons] at hmem
        have hhs := requestLoop_sendHeaders respond
          (authedHeaders callerHeaders s'.idToken) retries 0 hs hmem
        rw [hhs, hid]
        exact hget_authedHeaders_auth callerHeaders t

/-- Witness for C9: a caller-supplied Authorization header is overridden; the
password-flow request at the empty session carries none; and the single
transport attempt of a concrete authenticated request carries the bearer
token. -/
theorem authorization_header_policy_witness :
    (hget (authedHeaders [("Authorization", "Bearer attacker"), ("X-Test", "1")]
        (some "tok")) "Authorization" = some ("Bearer " ++ "tok")) ∧
    (hget (TokenRequest.headers
        { body := .password "e" "p", headers := baseRequestHeaders [] })
        "Authorization" = none) ∧
    (hget (authedHeaders [("Authorization", "Bearer attacker"), ("X-Test", "1")]
        (some "tok")) "Authorization" = some ("Bearer " ++ "tok")) := by
  have h := authorization_header_policy
    [("Authorization", "Bearer attacker"), ("X-Test", "1")] "tok"
  refine ⟨h.1, ?_, ?_⟩
  · exact h.2.1 emptySession 0 "e" "p"
      (.ok { id_token := "i", refresh_token := "r" })
      (.ok { id_token := "j" })
      { body := .password "e" "p", headers := baseRequestHeaders [] }
      (by rw [show (ensureAuthBody emptySession 0 "e" "p"
            (.ok { id_token := "i", refresh_token := "r" })
            (.ok { id_token := "j" })).2.2 =
          [{ body := .password "e" "p", headers := baseRequestHeaders [] }] from rfl]
          exact List.mem_singleton.mpr rfl)
  · have hloop := requestLoop_ok
      (fun _ => .ok { message := none, code := none, serialized := "ok" })
      (authedHeaders [("Authorization", "Bearer attacker"), ("X-Test", "1")] (some "tok"))
      0 0 { message := none, code := none, serialized := "ok" } rfl
    refine h.2.2
      { idToken := some "tok", refreshToken := some "rt",
        lastIdTokenRefresh := some 0, lastRefreshTokenRefresh := some 0 }
      0 "e" "p"
      (.ok { id_token := "i", refresh_token := "r" })
      (.ok { id_token := "j" })
      (fun _ => .ok { message := none, code := none, serialized := "ok" })
      0
      (authedHeaders [("Authorization", "Bearer attacker"), ("X-Test", "1")] (some "tok"))
      rfl ?_
    show (authedHeaders _ (some "tok")) ∈ sendHeaders
      (.ensureAuth :: (requestLoop
        (fun _ => .ok { message := none, code := none, serialized := "ok" })
        (authedHeaders [("Authorization", "Bearer attacker"), ("X-Test", "1")] (some "tok"))
        0 0).2)
    rw [hloop, sendHeaders_ensure_cons]
    simp [sendHeaders]

/-- C10: within one `authenticatedRequest` call, `ensureAuthenticated` runs
exactly once, as the very first step (before any transport attempt), and is
never re-invoked inside the retry loop: every transport attempt of the call
uses the same headers — hence the same Authorization value — as the first. -/
theorem ensureAuthenticated_invoked_once
    (s : Session) (now : Int) (email pw : String)
    (pwT : Except VisualpingApiError PasswordRefreshResp)
    (rtT : Except VisualpingApiError TokenRefreshResp)
    (callerHeaders : HeaderMap)
    (respond : Nat → Except ReqError JsonPayload) (retries : Nat) :
    countEnsures
      (authenticatedRequest s now email pw pwT rtT callerHeaders respond retries).2.2 = 1 ∧
    (authenticatedRequest s now email pw pwT rtT callerHeaders respond retries).2.2.head?
      = some .ensureAuth ∧
    (∀ h1 h2 : HeaderMap,
      h1 ∈ sendHeaders
        (authenticatedRequest s now email pw pwT rtT callerHeaders respond retries).2.2 →
      h2 ∈ sendHeaders
        (authenticatedRequest s now email pw pwT rtT callerHeaders respond retries).2.2 →
      h1 = h2) := by
  rcases hE : ensureAuthBody s now email pw pwT rtT with ⟨res, s', reqs⟩
  cases res with
  | error e =>
      refine ⟨?_, ?_, ?_⟩
      · simp [authenticatedRequest, hE, countEnsures, List.filter]
      · simp [authenticatedRequest, hE]
      · intro h1 h2 hm1 hm2
        simp only [authenticatedRequest, hE, sendHeaders, List.filterMap] at hm1
        exact absurd hm1 (List.not_mem_nil h1)
  | ok u =>
      refine ⟨?_, ?_, ?_⟩
      · simp only [authenticatedRequest, hE, countEnsures_ensure_cons]
        rw [requestLoop_no_ensure]
      · simp [authenticatedRequest, hE]
      · intro h1 h2 hm1 hm2
        simp only [authenticatedRequest, hE, sendHeaders_ensure_cons] at hm1 hm2
        have e1 := requestLoop_sendHeaders respond
          (authedHeaders callerHeaders s'.idToken) retries 0 h1 hm1
        have e2 := requestLoop_sendHeaders respond
          (authedHeaders callerHeaders s'.idToken) retries 0 h2 hm2
        rw [e1, e2]

/-- Witness for C10 at a concrete seeded session and a one-shot successful
transport. -/
theorem ensureAuthenticated_invoked_once_witness :
    countEnsures
      (authenticatedRequest
        { idToken := some "id_seeded", refreshToken := some "rt",
          lastIdTokenRefresh := some 0, lastRefreshTokenRefresh := some 0 }
        0 "e" "p"
        (.ok { id_token := "i", refresh_token := "r" })
        (.ok { id_token := "j" })
        [("X-Test", "1")]
        (fun _ => .ok { message := none, code := none, serialized := "ok" })
        2).2.2 = 1 ∧
    (authenticatedRequest
        { idToken := some "id_seeded", refreshToken := some "rt",
          lastIdTokenRefresh := some 0, lastRefreshTokenRefresh := some 0 }
        0 "e" "p"
        (.ok { id_token := "i", refresh_token := "r" })
        (.ok { id_token := "j" })
        [("X-Test", "1")]
        (fun _ => .ok { message := none, code := none, serialized := "ok" })
        2).2.2.head? = some .ensureAuth ∧
    authedHeaders [("X-Test", "1")] (some "id_seeded") =
      authedHeaders [("X-Test", "1")] (some "id_seeded") := by
  have h := ensureAuthenticated_invoked_once
    { idToken := some "id_seeded", refreshToken := some "rt",
      lastIdTokenRefresh := some 0, lastRefreshTokenRefresh := some 0 }
    0 "e" "p"
    (.ok { id_token := "i", refresh_token := "r" })
    (.ok { id_token := "j" })
    [("X-Test", "1")]
    (fun _ => .ok { message := none, code := none, serialized := "ok" })
    2
  have hloop := requestLoop_ok
    (fun _ => .ok { message := none, code := none, serialized := "ok" })
    (authedHeaders [("X-Test", "1")] (some "id_seeded"))
    2 0 { message := none, code := none, serialized := "ok" } rfl
  refine ⟨h.1, h.2.1, ?_⟩
  refine h.2.2 _ _ ?_ ?_ <;>
  · show (authedHeaders [("X-Test", "1")] (some "id_seeded")) ∈ sendHeaders
      (.ensureAuth :: (requestLoop
        (fun _ => .ok { message := none, code := none, serialized := "ok" })
        (authedHeaders [("X-Test", "1")] (some "id_seeded")) 2 0).2)
    rw [hloop, sendHeaders_ensure_cons]
    simp [sendHeaders]
